import Mathlib

/-
Verification of the chess rules engine in src/lib.rs (crate alviny-task-3).

The engine is shallowly embedded: the Rust `Board` and `Game` structs become
Lean structures, the mutating methods become pure state-passing functions, and
the `i32` board coordinates become `Int` (Rust `Vec<i32>` coordinate pairs
become `List Int`, which is also what the HashMap keys are).  The Rust
`HashMap< Vec<i32>, Vec<Vec<i32>> >` is modelled as an association list in
board-scan order; every downstream use of the map in the source (membership
tests, key counting, indexed lookup) is order-insensitive, so this is a
faithful model of the observable behaviour.

Totalization convention: Rust `panic!`/`expect`/out-of-bounds indexing aborts
the program.  Wherever the source can abort (indexing a row outside an 8 x 8
grid, algebraic notation outside a1..h8, a `HashMap` index on a missing key,
an unknown `active_player`), the Lean model instead returns a neutral default
(the empty-square marker, a no-op update).  Each such spot is marked with a
comment; every theorem below is evaluated only at inputs where the source does
not abort, except where the statement is independent of those defaults.
The single panic the specification talks about (the catch-all arm of
`get_piece_movements`) is modelled exactly, as `Option` with `none` = panic.
-/

set_option maxHeartbeats 4000000
set_option maxRecDepth 8000

namespace Chess

/-- Rust struct `Board` (src/lib.rs:484-506).  `board_state` is the grid of
FEN characters with `*` for an empty square; `castling_availability` is the
Rust `String` modelled as its list of characters; `en_passant_square` stays a
`String` ("-" or an algebraic square). -/
structure Board where
  board_state : List (List Char)
  active_player : Char
  castling_availability : List Char
  en_passant_square : String
  halfmove_counter : Int
  turn_counter : Nat
  promotion_selection : Char
deriving DecidableEq, Repr

/-- Rust struct `Game` (src/lib.rs:313-319).  `game_status` is the `u8` status
code: 0 in progress, 1 checkmate white wins, 2 checkmate black wins,
3 stalemate, 4 draw by fifty-move rule. -/
structure Game where
  fen : String
  board : Board
  checks : List Bool
  game_status : Nat
deriving DecidableEq, Repr

/-- Rust `get_board_coords` (src/lib.rs:105-117): algebraic notation to
board coordinates, `[8 - rank_digit, file_index]`.  Rust panics on strings
that are not well-formed squares; the model returns an out-of-range
coordinate there instead. -/
def get_board_coords (algebraic : String) : List Int :=
  let cs := algebraic.toList
  let col_number : Int := Int.ofNat (("abcdefgh".toList).indexOf (cs.getD 0 ' '))
  let row_number : Int := Int.ofNat ((cs.getD 1 '0').toNat - '0'.toNat)
  [8 - row_number, col_number]

/-- Rust `get_algebraic_notation` (src/lib.rs:119-123), inverse of
`get_board_coords` (renamed; the model keeps the source behaviour: file
letter from the column index, then the decimal rendering of `8 - row`).
Rust panics when the column index is outside 0..7; the model emits a blank
file letter there instead. -/
def get_algebraic_name (coords : List Int) : String :=
  let c := coords.getD 1 0
  let col_name :=
    if 0 ≤ c then ("abcdefgh".toList).getD c.toNat ' ' else ' '
  String.mk (col_name :: (toString (8 - coords.getD 0 0)).toList)

/-- Rust `get_piece` (src/lib.rs:125-127).  Out-of-range coordinates abort in
Rust (usize cast + index); the model returns the empty marker `*` exactly in
those aborting cases. -/
def get_piece (board : Board) (coords : List Int) : Char :=
  let r := coords.getD 0 0
  let c := coords.getD 1 0
  if 0 ≤ r ∧ 0 ≤ c then (board.board_state.getD r.toNat []).getD c.toNat '*'
  else '*'

/-- Rust `is_enemy_piece` (src/lib.rs:130-132).  `Char.isLower`/`Char.isUpper`
are the ASCII ranges, matching `is_ascii_lowercase`/`is_ascii_uppercase`. -/
def is_enemy_piece (active_player piece : Char) : Bool :=
  (active_player = 'w' && piece.isLower) || (active_player = 'b' && piece.isUpper)

/-- Rust `Board::set_piece` (src/lib.rs:1027-1029).  Out-of-range coordinates
abort in Rust; the model leaves the board unchanged exactly there. -/
def Board.set_piece (board : Board) (coords : List Int) (piece : Char) : Board :=
  let r := coords.getD 0 0
  let c := coords.getD 1 0
  if 0 ≤ r ∧ 0 ≤ c then
    { board with
        board_state := board.board_state.set r.toNat
          ((board.board_state.getD r.toNat []).set c.toNat piece) }
  else board

/-- The sliding-piece loop-break test "collision with a friendly piece"
(used before pushing a square in every ray loop of `get_piece_movements`). -/
def friendly_break (color sq : Char) : Bool :=
  (color = 'w' && sq.isUpper) || (color = 'b' && sq.isLower)

/-- The sliding-piece loop-break test "collision with an enemy piece"
(used after pushing a square in every ray loop of `get_piece_movements`). -/
def enemy_break (color sq : Char) : Bool :=
  (color = 'w' && sq.isLower) || (color = 'b' && sq.isUpper)

/-- One ray of a sliding piece: walk the listed coordinate offsets in order,
stopping before a friendly piece and after an enemy piece, exactly as each
labelled `for`-loop with `break` does in the bishop/rook arms of
`Board::get_piece_movements` (src/lib.rs:584-843). -/
def walk_ray (board : Board) (color : Char) (step : Int → List Int) :
    List Int → List (List Int)
  | [] => []
  | cm :: rest =>
    let sq := get_piece board (step cm)
    if friendly_break color sq then []
    else if enemy_break color sq then [step cm]
    else step cm :: walk_ray board color step rest

/-- The Rust iterator `1..bound` over `i32`, as a list. -/
def range_mods (bound : Int) : List Int :=
  (List.range' 1 (bound - 1).toNat).map Int.ofNat

/-- Bishop arm of `Board::get_piece_movements` (src/lib.rs:584-679): the four
diagonal rays, in source order (+y+x, +y-x, -y-x, -y+x), with the source's
loop bounds. -/
def bishop_moves (board : Board) (coords : List Int) (color : Char) :
    List (List Int) :=
  let y := coords.getD 0 0
  let x := coords.getD 1 0
  walk_ray board color (fun cm => [y + cm, x + cm]) (range_mods (min (8 - y) (8 - x)))
    ++ walk_ray board color (fun cm => [y + cm, x - cm]) (range_mods (min (8 - y) (x + 1)))
    ++ walk_ray board color (fun cm => [y - cm, x - cm]) (range_mods (min (x + 1) (y + 1)))
    ++ walk_ray board color (fun cm => [y - cm, x + cm]) (range_mods (min (y + 1) (8 - x)))

/-- Rook arm of `Board::get_piece_movements` (src/lib.rs:733-843): the four
orthogonal rays in source order (-x, +x, -y, +y).  The source iterates the
target file/rank directly; the model iterates the offset `cm`, which visits
exactly the same squares in the same order. -/
def rook_moves (board : Board) (coords : List Int) (color : Char) :
    List (List Int) :=
  let y := coords.getD 0 0
  let x := coords.getD 1 0
  walk_ray board color (fun cm => [y, x - cm]) (range_mods (x + 1))
    ++ walk_ray board color (fun cm => [y, x + cm]) (range_mods (8 - x))
    ++ walk_ray board color (fun cm => [y - cm, x]) (range_mods (y + 1))
    ++ walk_ray board color (fun cm => [y + cm, x]) (range_mods (8 - y))

/-- Pawn arm of `Board::get_piece_movements` (src/lib.rs:516-583), in source
push order: forward, capture toward file a, capture toward file h, double
push, en passant toward file a, en passant toward file h.  Note the source
guards the captures with `x_pos - 1 > 0` (not `>= 0`). -/
def pawn_moves (board : Board) (coords : List Int) (color : Char) :
    List (List Int) :=
  let y := coords.getD 0 0
  let x := coords.getD 1 0
  if color = 'w' then
    (if get_piece board [y - 1, x] = '*' then [[y - 1, x]] else [])
    ++ (if x - 1 > 0 ∧ is_enemy_piece 'w' (get_piece board [y - 1, x - 1]) then
          [[y - 1, x - 1]] else [])
    ++ (if x + 1 < 8 ∧ is_enemy_piece 'w' (get_piece board [y - 1, x + 1]) then
          [[y - 1, x + 1]] else [])
    ++ (if y = 6 ∧ get_piece board [y - 2, x] = '*' ∧ get_piece board [y - 1, x] = '*' then
          [[y - 2, x]] else [])
    ++ (if board.en_passant_square ≠ "-" then
          (if x - 1 > 0 ∧ get_board_coords board.en_passant_square = [y - 1, x - 1] then
            [[y - 1, x - 1]] else [])
          ++ (if x + 1 < 8 ∧ get_board_coords board.en_passant_square = [y - 1, x + 1] then
            [[y - 1, x + 1]] else [])
        else [])
  else if color = 'b' then
    (if get_piece board [y + 1, x] = '*' then [[y + 1, x]] else [])
    ++ (if x - 1 > 0 ∧ is_enemy_piece 'b' (get_piece board [y + 1, x - 1]) then
          [[y + 1, x - 1]] else [])
    ++ (if x + 1 < 8 ∧ is_enemy_piece 'b' (get_piece board [y + 1, x + 1]) then
          [[y + 1, x + 1]] else [])
    ++ (if y = 1 ∧ get_piece board [y + 2, x] = '*' ∧ get_piece board [y + 1, x] = '*' then
          [[y + 2, x]] else [])
    ++ (if board.en_passant_square ≠ "-" then
          (if x - 1 > 0 ∧ get_board_coords board.en_passant_square = [y + 1, x - 1] then
            [[y + 1, x - 1]] else [])
          ++ (if x + 1 < 8 ∧ get_board_coords board.en_passant_square = [y + 1, x + 1] then
            [[y + 1, x + 1]] else [])
        else [])
  else []

/-- Knight arm of `Board::get_piece_movements` (src/lib.rs:680-731): the eight
fixed offsets in source order, each allowed onto an enemy piece or an empty
square. -/
def knight_moves (board : Board) (coords : List Int) (color : Char) :
    List (List Int) :=
  let y := coords.getD 0 0
  let x := coords.getD 1 0
  (if y + 2 < 8 ∧ x + 1 < 8 ∧
      (is_enemy_piece color (get_piece board [y + 2, x + 1]) ∨
        get_piece board [y + 2, x + 1] = '*') then [[y + 2, x + 1]] else [])
  ++ (if y + 2 < 8 ∧ x - 1 ≥ 0 ∧
      (is_enemy_piece color (get_piece board [y + 2, x - 1]) ∨
        get_piece board [y + 2, x - 1] = '*') then [[y + 2, x - 1]] else [])
  ++ (if y - 2 ≥ 0 ∧ x + 1 < 8 ∧
      (is_enemy_piece color (get_piece board [y - 2, x + 1]) ∨
        get_piece board [y - 2, x + 1] = '*') then [[y - 2, x + 1]] else [])
  ++ (if y - 2 ≥ 0 ∧ x - 1 ≥ 0 ∧
      (is_enemy_piece color (get_piece board [y - 2, x - 1]) ∨
        get_piece board [y - 2, x - 1] = '*') then [[y - 2, x - 1]] else [])
  ++ (if y + 1 < 8 ∧ x + 2 < 8 ∧
      (is_enemy_piece color (get_piece board [y + 1, x + 2]) ∨
        get_piece board [y + 1, x + 2] = '*') then [[y + 1, x + 2]] else [])
  ++ (if y - 1 ≥ 0 ∧ x + 2 < 8 ∧
      (is_enemy_piece color (get_piece board [y - 1, x + 2]) ∨
        get_piece board [y - 1, x + 2] = '*') then [[y - 1, x + 2]] else [])
  ++ (if y + 1 < 8 ∧ x - 2 ≥ 0 ∧
      (is_enemy_piece color (get_piece board [y + 1, x - 2]) ∨
        get_piece board [y + 1, x - 2] = '*') then [[y + 1, x - 2]] else [])
  ++ (if y - 1 ≥ 0 ∧ x - 2 ≥ 0 ∧
      (is_enemy_piece color (get_piece board [y - 1, x - 2]) ∨
        get_piece board [y - 1, x - 2] = '*') then [[y - 1, x - 2]] else [])

/-- King arm of `Board::get_piece_movements` (src/lib.rs:853-921): the eight
adjacent squares in source order, then the castling pushes.  The source
checks three in-between squares for white queenside castling but only two for
black queenside, which the model reproduces. -/
def king_moves (board : Board) (coords : List Int) (color : Char) :
    List (List Int) :=
  let y := coords.getD 0 0
  let x := coords.getD 1 0
  (if y + 1 < 8 ∧
      (is_enemy_piece color (get_piece board [y + 1, x]) ∨
        get_piece board [y + 1, x] = '*') then [[y + 1, x]] else [])
  ++ (if y - 1 ≥ 0 ∧
      (is_enemy_piece color (get_piece board [y - 1, x]) ∨
        get_piece board [y - 1, x] = '*') then [[y - 1, x]] else [])
  ++ (if x + 1 < 8 ∧
      (is_enemy_piece color (get_piece board [y, x + 1]) ∨
        get_piece board [y, x + 1] = '*') then [[y, x + 1]] else [])
  ++ (if x - 1 ≥ 0 ∧
      (is_enemy_piece color (get_piece board [y, x - 1]) ∨
        get_piece board [y, x - 1] = '*') then [[y, x - 1]] else [])
  ++ (if y + 1 < 8 ∧ x + 1 < 8 ∧
      (is_enemy_piece color (get_piece board [y + 1, x + 1]) ∨
        get_piece board [y + 1, x + 1] = '*') then [[y + 1, x + 1]] else [])
  ++ (if y + 1 < 8 ∧ x - 1 ≥ 0 ∧
      (is_enemy_piece color (get_piece board [y + 1, x - 1]) ∨
        get_piece board [y + 1, x - 1] = '*') then [[y + 1, x - 1]] else [])
  ++ (if y - 1 ≥ 0 ∧ x + 1 < 8 ∧
      (is_enemy_piece color (get_piece board [y - 1, x + 1]) ∨
        get_piece board [y - 1, x + 1] = '*') then [[y - 1, x + 1]] else [])
  ++ (if y - 1 ≥ 0 ∧ x - 1 ≥ 0 ∧
      (is_enemy_piece color (get_piece board [y - 1, x - 1]) ∨
        get_piece board [y - 1, x - 1] = '*') then [[y - 1, x - 1]] else [])
  ++ (if color = 'w' then
        (if 'K' ∈ board.castling_availability ∧ get_piece board [y, x + 1] = '*' ∧
            get_piece board [y, x + 2] = '*' then [[y, x + 2]] else [])
        ++ (if 'Q' ∈ board.castling_availability ∧ get_piece board [y, x - 1] = '*' ∧
            get_piece board [y, x - 2] = '*' ∧ get_piece board [y, x - 3] = '*' then
            [[y, x - 2]] else [])
      else if color = 'b' then
        (if 'k' ∈ board.castling_availability ∧ get_piece board [y, x + 1] = '*' ∧
            get_piece board [y, x + 2] = '*' then [[y, x + 2]] else [])
        ++ (if 'q' ∈ board.castling_availability ∧ get_piece board [y, x - 1] = '*' ∧
            get_piece board [y, x - 2] = '*' then [[y, x - 2]] else [])
      else [])

/-- Rust `Board::get_piece_movements` (src/lib.rs:508-925): the match on
`piece.to_ascii_lowercase()`.  The queen arm is the bishop list followed by
the rook list, exactly as the source's two recursive calls produce.  `none`
models the catch-all `panic!` arm (src/lib.rs:923); the `'*'` arm returns the
empty list without panicking (src/lib.rs:922). -/
def Board.get_piece_movements (board : Board) (coords : List Int)
    (piece : Char) (color : Char) : Option (List (List Int)) :=
  match piece.toLower with
  | 'p' => some (pawn_moves board coords color)
  | 'b' => some (bishop_moves board coords color)
  | 'n' => some (knight_moves board coords color)
  | 'r' => some (rook_moves board coords color)
  | 'q' => some (bishop_moves board coords color ++ rook_moves board coords color)
  | 'k' => some (king_moves board coords color)
  | '*' => some []
  | _ => none

/-- The piece-collection scan of `get_available_moves_internal`
(src/lib.rs:209-229): visit the grid in row-major order and, for every piece
of the requested color whose movement list is non-empty, record the
coordinate and its movements.  The Rust `HashMap` is modelled as this
association list (distinct keys, scan order).  The `.getD []` covers the only
case in which `get_piece_movements` panics in Rust (a character that is not a
piece and not `*`), where no list is returned at all. -/
def piece_scan (board : Board) (color : Char) :
    List (List Int × List (List Int)) :=
  board.board_state.enum.flatMap (fun yrow =>
    yrow.2.enum.flatMap (fun xpiece =>
      if (color = 'w' ∧ xpiece.2.isUpper) ∨ (color = 'b' ∧ xpiece.2.isLower) then
        let coords : List Int := [Int.ofNat yrow.1, Int.ofNat xpiece.1]
        let movements := (board.get_piece_movements coords xpiece.2 color).getD []
        if movements.isEmpty then [] else [(coords, movements)]
      else []))

/-- Embedding of `get_available_moves_internal(board, color, true)`: with
`force_no_check = true` the function runs only the collection scan and the
removal of empty move lists (src/lib.rs:267-290), and never consults the
check detector.  Stratifying it as this separate, earlier definition is what
breaks the mutual recursion with `player_is_in_check`, exactly as the
`force_no_check` flag does in the source. -/
def get_available_moves_no_check (board : Board) (color : Char) :
    List (List Int × List (List Int)) :=
  (piece_scan board color).filterMap
    (fun kv => if kv.2.isEmpty then none else some kv)

/-- Rust `player_is_in_check` (src/lib.rs:141-158): generate the opposing
color's moves in raw mode and look for a destination square holding a king
character (case-insensitive `k`). -/
def player_is_in_check (board : Board) (player : Char) : Bool :=
  let enemy := if player = 'w' then 'b' else if player = 'b' then 'w' else 'n'
  (get_available_moves_no_check board enemy).any (fun kv =>
    kv.2.any (fun legal_move => (get_piece board legal_move).toLower = 'k'))

/-- Rust `check_for_checks` (src/lib.rs:138-140). -/
def check_for_checks (board : Board) : List Bool :=
  [player_is_in_check board 'w', player_is_in_check board 'b']

/-- The castling-availability update at the top of `Board::move_piece`
(src/lib.rs:937-957), split out verbatim: the rook `if`-chain, then the king
`if`, then the replacement of an emptied string by `"-"`.  The Rust
`String::replace(c, "")` removes every occurrence of `c`, i.e. a filter. -/
def update_castling (piece : Char) (source_col : Int) (ca : List Char) :
    List Char :=
  let ca :=
    if piece = 'R' ∧ source_col = 0 then ca.filter (fun c => c ≠ 'Q')
    else if piece = 'R' ∧ source_col = 7 then ca.filter (fun c => c ≠ 'K')
    else if piece = 'r' ∧ source_col = 0 then ca.filter (fun c => c ≠ 'q')
    else if piece = 'r' ∧ source_col = 7 then ca.filter (fun c => c ≠ 'k')
    else ca
  let ca :=
    if piece = 'K' then (ca.filter (fun c => c ≠ 'Q')).filter (fun c => c ≠ 'K')
    else if piece = 'k' then (ca.filter (fun c => c ≠ 'q')).filter (fun c => c ≠ 'k')
    else ca
  if ca.isEmpty then ['-'] else ca

/-- Rust `Board::move_piece` (src/lib.rs:927-1025), the move executor, as a
pure state-passing function.  All special cases are kept exactly as written,
including the two source slips: the third castling branch places an uppercase
`R` for black queenside castling, and the fourth branch repeats the white
kingside condition instead of handling black kingside (src/lib.rs:1015-1024).
The `panic!` on an unknown `active_player` in the en-passant arm
(src/lib.rs:999) is modelled as leaving the board unchanged. -/
def Board.move_piece (board : Board) (source target : List Int) : Board :=
  let piece := get_piece board source
  let ca := update_castling piece (source.getD 1 0) board.castling_availability
  -- capture detection and pawn handling of the halfmove flag and the
  -- en-passant square (src/lib.rs:960-976)
  let increment0 := if get_piece board target ≠ '*' then false else true
  let is_pawn := piece.toLower = 'p'
  let epinc :=
    if is_pawn then
      let ep :=
        if target.getD 0 0 = source.getD 0 0 + 2 then
          get_algebraic_name [source.getD 0 0 + 1, source.getD 1 0]
        else board.en_passant_square
      let ep :=
        if target.getD 0 0 = source.getD 0 0 - 2 then
          get_algebraic_name [source.getD 0 0 - 1, source.getD 1 0]
        else ep
      (ep, false)
    else ("-", increment0)
  let halfmove := if epinc.2 then board.halfmove_counter + 1 else 0
  let b1 := { board with
                castling_availability := ca,
                en_passant_square := epinc.1,
                halfmove_counter := halfmove }
  let b2 := b1.set_piece source '*'
  -- promotion (src/lib.rs:984-992); for an active player outside w and b the
  -- source sets no piece at all, which the model reproduces
  let b3 :=
    if is_pawn ∧ (target.getD 0 0 = 0 ∨ target.getD 0 0 = 7) then
      if board.active_player = 'w' then
        b2.set_piece target board.promotion_selection.toUpper
      else if board.active_player = 'b' then
        b2.set_piece target board.promotion_selection.toLower
      else b2
    else b2.set_piece target piece
  -- en passant capture removal (src/lib.rs:993-1002)
  let b4 :=
    if epinc.1 ≠ "-" ∧ target = get_board_coords epinc.1 then
      if board.active_player = 'w' then
        b3.set_piece [target.getD 0 0 + 1, target.getD 1 0] '*'
      else if board.active_player = 'b' then
        b3.set_piece [target.getD 0 0 - 1, target.getD 1 0] '*'
      else b3
    else b3
  -- castling rook relocation (src/lib.rs:1004-1024), four sequential ifs
  let s1 := source.getD 1 0
  let t1 := target.getD 1 0
  let b5 :=
    if piece = 'K' ∧ s1 - t1 = 2 then
      ((b4.set_piece target piece).set_piece [7, 0] '*').set_piece
        [target.getD 0 0, t1 + 1] 'R'
    else b4
  let b6 :=
    if piece = 'K' ∧ s1 - t1 = -2 then
      ((b5.set_piece target piece).set_piece [7, 7] '*').set_piece
        [target.getD 0 0, t1 - 1] 'R'
    else b5
  let b7 :=
    if piece = 'k' ∧ s1 - t1 = 2 then
      ((b6.set_piece target piece).set_piece [0, 0] '*').set_piece
        [target.getD 0 0, t1 + 1] 'R'
    else b6
  let b8 :=
    if piece = 'K' ∧ s1 - t1 = -2 then
      ((b7.set_piece target piece).set_piece [7, 7] '*').set_piece
        [target.getD 0 0, t1 - 1] 'R'
    else b7
  b8

/-- Remove the first occurrence of a coordinate from a move list: the
`position` + `remove` idiom used to strip castling moves in
`get_available_moves_internal` (src/lib.rs:242-259).  When the coordinate is
absent nothing happens, matching the `contains` guard. -/
def remove_first (l : List (List Int)) (a : List Int) : List (List Int) :=
  match l with
  | [] => []
  | x :: xs => if x = a then xs else x :: remove_first xs a

/-- The castling-move removal applied to the in-check player's king entry
(src/lib.rs:240-262).  The source indexes `output[key]` directly, which
panics when the king has no recorded moves; the model updates the entry when
present and does nothing otherwise. -/
def drop_castles (entries : List (List Int × List (List Int)))
    (key t1 t2 : List Int) : List (List Int × List (List Int)) :=
  entries.map (fun kv =>
    if kv.1 = key then (kv.1, remove_first (remove_first kv.2 t1) t2) else kv)

/-- Rust `get_available_moves_internal` (src/lib.rs:203-294).  Stage one is
the collection scan; stage two (skipped when `force_no_check`) filters moves
that leave the mover in check when the mover already is in check and strips
the king's castling squares; stage three removes entries whose move list is
empty and, when not `force_no_check`, removes the moves whose simulated
execution leaves the mover in check (the `elements_to_remove` loop,
src/lib.rs:273-285).  Keys emptied by stage three itself are kept, exactly as
in the source. -/
def get_available_moves_internal (board : Board) (color : Char)
    (force_no_check : Bool) : List (List Int × List (List Int)) :=
  let output := piece_scan board color
  let output :=
    if force_no_check then output
    else if player_is_in_check board color then
      let output := output.map (fun kv =>
        (kv.1, kv.2.filter (fun legal_move =>
          ! player_is_in_check (board.move_piece kv.1 legal_move) color)))
      if color = 'w' then
        if get_piece board [7, 4] = 'K' then
          drop_castles output [7, 4] [7, 6] [7, 2]
        else output
      else if color = 'b' then
        if get_piece board [0, 4] = 'k' then
          drop_castles output [0, 4] [0, 6] [0, 2]
        else output
      else output
    else output
  output.filterMap (fun kv =>
    if kv.2.isEmpty then none
    else some (kv.1,
      if force_no_check then kv.2
      else
        let elements_to_remove := kv.2.filter (fun coord =>
          player_is_in_check (board.move_piece kv.1 coord) color)
        kv.2.filter (fun x => ! elements_to_remove.contains x)))

/-- Rust `str::split(sep)` on a character list, as used by `parse_fen`. -/
def split_on_char (sep : Char) : List Char → List (List Char)
  | [] => [[]]
  | c :: rest =>
    let r := split_on_char sep rest
    if c = sep then [] :: r
    else (c :: r.headD []) :: r.tail

/-- One FEN board row expanded to characters, with digits replaced by that
many `*` markers (src/lib.rs:32-49). -/
def expand_fen_row (row : List Char) : List Char :=
  row.flatMap (fun c =>
    if c.isDigit then List.replicate (c.toNat - '0'.toNat) '*' else [c])

/-- Decimal parsing of the counter fields, matching Rust `str::parse` on the
well-formed numeric strings that occur in a FEN (Rust aborts on anything
else). -/
def parse_nat (cs : List Char) : Nat :=
  cs.foldl (fun acc c => acc * 10 + (c.toNat - '0'.toNat)) 0

/-- Rust `parse_fen` (src/lib.rs:25-66).  Rust aborts on malformed FEN
strings (missing fields, empty color field); the model substitutes neutral
defaults exactly there. -/
def parse_fen (fen : String) : Board :=
  let fen_vec := split_on_char ' ' fen.toList
  let board_state_vec := split_on_char '/' (fen_vec.getD 0 [])
  { board_state := board_state_vec.map expand_fen_row
    active_player := (fen_vec.getD 1 []).getD 0 ' '
    castling_availability := fen_vec.getD 2 []
    en_passant_square := String.mk (fen_vec.getD 3 [])
    halfmove_counter := Int.ofNat (parse_nat (fen_vec.getD 4 []))
    turn_counter := parse_nat (fen_vec.getD 5 [])
    promotion_selection := 'q' }

/-- One board row rendered back to FEN: runs of `*` collapse to their count
(src/lib.rs:71-86; the fold state is the built row and the pending count of
empty squares). -/
def fen_row_chars (row : List Char) : List Char :=
  let step := row.foldl (fun acc c =>
      if c = '*' then (acc.1, acc.2 + 1)
      else if acc.2 > 0 then (acc.1 ++ (toString acc.2).toList ++ [c], 0)
      else (acc.1 ++ [c], 0))
    (([] : List Char), (0 : Nat))
  if step.2 > 0 then step.1 ++ (toString step.2).toList else step.1

/-- Rust `generate_fen` (src/lib.rs:68-103). -/
def generate_fen (board : Board) : String :=
  let rows := board.board_state.map (fun r => String.mk (fen_row_chars r))
  let fen := rows.foldl (fun acc r => if acc.isEmpty then r else acc ++ "/" ++ r) ""
  fen ++ " " ++ String.mk [board.active_player]
      ++ " " ++ String.mk board.castling_availability
      ++ " " ++ board.en_passant_square
      ++ " " ++ toString board.halfmove_counter
      ++ " " ++ toString board.turn_counter

/-- Association-list lookup for the move map, the model of
`HashMap::contains_key` plus indexing. -/
def lookup_entry (entries : List (List Int × List (List Int)))
    (key : List Int) : Option (List (List Int)) :=
  match entries with
  | [] => none
  | kv :: rest => if kv.1 = key then some kv.2 else lookup_entry rest key

/-- Rust `Game::update_game_status` (src/lib.rs:413-439): start from 0, set 4
when the halfmove counter has reached 100, then let the zero-legal-move
classifications overwrite it (each arm returns immediately in the source, so
the fall-through keeps the fifty-move value). -/
def Game.update_game_status (game : Game) : Game :=
  let status : Nat := if game.board.halfmove_counter ≥ 100 then 4 else 0
  if (get_available_moves_internal game.board 'w' false).length = 0 then
    { game with game_status := if game.checks.getD 0 false then 2 else 3 }
  else if (get_available_moves_internal game.board 'b' false).length = 0 then
    { game with game_status := if game.checks.getD 1 false then 1 else 3 }
  else { game with game_status := status }

/-- Rust `Game::new_from_fen` (src/lib.rs:336-342). -/
def Game.new_from_fen (fen : String) : Game :=
  let board := parse_fen fen
  let checks := check_for_checks board
  Game.update_game_status
    { fen := fen, board := board, checks := checks, game_status := 0 }

/-- Rust `Game::new` (src/lib.rs:356-360): the standard starting position. -/
def Game.new : Game :=
  Game.new_from_fen "rnbqkbnr/pppppppp/8/8/8/8/PPPPPPPP/RNBQKBNR w KQkq - 0 1"

/-- Rust `Game::make_move` (src/lib.rs:381-411).  The `&mut self` method is
modelled as returning the success flag together with the new game value; the
early `return false` path performs no mutation in the source, so the model
returns the input game there. -/
def Game.make_move (game : Game) (source target : String) : Bool × Game :=
  let source_coords := get_board_coords source
  let target_coords := get_board_coords target
  let available_moves :=
    get_available_moves_internal game.board game.board.active_player false
  match lookup_entry available_moves source_coords with
  | none => (false, game)
  | some moves =>
    if target_coords ∈ moves then
      let board := game.board.move_piece source_coords target_coords
      let board :=
        if board.active_player = 'w' then { board with active_player := 'b' }
        else if board.active_player = 'b' then
          { board with active_player := 'w', turn_counter := board.turn_counter + 1 }
        else board
      let checks := check_for_checks board
      let game1 := Game.update_game_status
        { game with board := board, checks := checks }
      (true, { game1 with fen := generate_fen game1.board })
    else (false, game)

/-- A sequence of executed moves, each applied through the move executor. -/
def apply_moves (board : Board) : List (List Int × List Int) → Board
  | [] => board
  | (s, t) :: rest => apply_moves (board.move_piece s t) rest

/-! ### Helper lemmas -/

/-- Every entry recorded by the collection scan has a non-empty move list
(the scan only inserts when `!movements.is_empty()`). -/
theorem piece_scan_nonempty {board : Board} {color : Char}
    {kv : List Int × List (List Int)} (h : kv ∈ piece_scan board color) :
    kv.2.isEmpty = false := by
  unfold piece_scan at h
  simp only [List.mem_flatMap] at h
  obtain ⟨yrow, _, h⟩ := h
  obtain ⟨xp, _, h⟩ := h
  split at h
  · split at h
    next => simp at h
    next hne =>
      simp only [List.mem_singleton] at h
      subst h
      simpa using hne
  · simp at h

/-- A `filterMap` that drops empty-valued entries is the identity on a list
without empty-valued entries. -/
theorem filterMap_id_of_nonempty (l : List (List Int × List (List Int)))
    (h : ∀ kv ∈ l, kv.2.isEmpty = false) :
    l.filterMap (fun kv => if kv.2.isEmpty then none else some (kv.1, kv.2)) = l := by
  induction l with
  | nil => rfl
  | cons a t ih =>
    simp only [List.filterMap_cons]
    rw [if_neg (by simp [h a (List.mem_cons_self a t)])]
    rw [ih (fun kv hkv => h kv (List.mem_cons_of_mem a hkv))]

/-! ### C10: no mutual recursion between check detection and move generation -/

/-- C10.  With `force_no_check = true`, `get_available_moves_internal` is
exactly the raw collection scan `piece_scan`: it performs no filtering and in
particular makes no call to `player_is_in_check`.  In the embedding this is
visible in the stratification of the definitions: `piece_scan` and
`get_available_moves_no_check` are defined before `player_is_in_check`, and
`player_is_in_check` consumes only them, so Lean accepts all of them as total
(terminating) functions, with no mutual recursion — the full legal-move
computation `get_available_moves_internal` then terminates on every board. -/
theorem c10_raw_mode_is_pure_scan (board : Board) (color : Char) :
    get_available_moves_internal board color true = piece_scan board color := by
  unfold get_available_moves_internal
  simp only [if_true]
  exact filterMap_id_of_nonempty _ (fun kv hkv => piece_scan_nonempty hkv)

/-! ### C1: the legality filter never leaves the mover in check -/

/-- C1.  For every board and every color, any move `(key, mv)` returned by
`get_available_moves_internal` with `force_no_check = false` satisfies: after
executing the move with the move executor, the mover is not in check (no
opposing pseudo-legal move can capture the mover's king, which is exactly
what `player_is_in_check` tests). -/
theorem c1_legal_moves_never_leave_check (board : Board) (color : Char)
    (key : List Int) (moves : List (List Int)) (mv : List Int)
    (hkey : (key, moves) ∈ get_available_moves_internal board color false)
    (hmv : mv ∈ moves) :
    player_is_in_check (board.move_piece key mv) color = false := by
  unfold get_available_moves_internal at hkey
  simp only [List.mem_filterMap] at hkey
  obtain ⟨kv, hkv, heq⟩ := hkey
  by_cases hemp : kv.2.isEmpty
  · rw [if_pos hemp] at heq
    exact absurd heq (by simp)
  · rw [if_neg hemp] at heq
    simp only [Bool.false_eq_true, if_false, Option.some.injEq, Prod.mk.injEq] at heq
    obtain ⟨hk, hmoves⟩ := heq
    rw [← hmoves] at hmv
    simp only [List.mem_filter] at hmv
    obtain ⟨hmem, hkeep⟩ := hmv
    subst hk
    by_contra hcheck
    rw [Bool.not_eq_false] at hcheck
    have hrem : mv ∈ kv.2.filter (fun coord =>
        player_is_in_check (board.move_piece kv.1 coord) color) :=
      List.mem_filter.mpr ⟨hmem, hcheck⟩
    have htrue : (kv.2.filter (fun coord =>
        player_is_in_check (board.move_piece kv.1 coord) color)).contains mv = true :=
      List.elem_eq_true_of_mem hrem
    rw [htrue] at hkeep
    simp at hkeep

/-! ### C2: a rejected move leaves the Game unchanged -/

/-- C2.  Whenever `make_move` reports failure (the requested source/target
pair is not among the active player's legal moves), the returned game — every
field: fen, board grid, active player, castling rights, en-passant square,
counters, check flags and status — is the input game: the source returns
`false` before performing any mutation. -/
theorem c2_rejected_move_unchanged (game : Game) (source target : String)
    (h : (game.make_move source target).1 = false) :
    (game.make_move source target).2 = game := by
  unfold Game.make_move at h ⊢
  cases hl : lookup_entry
      (get_available_moves_internal game.board game.board.active_player false)
      (get_board_coords source) with
  | none => simp [hl]
  | some moves =>
    by_cases hmem : get_board_coords target ∈ moves
    · simp [hl, hmem] at h
    · simp [hl, hmem]

/-! ### C7: castling rights are monotone and cleared by king and rook moves -/

/-- Membership in a castling string other than the `-` placeholder survives
the empty-string replacement at the end of `update_castling`. -/
theorem mem_dash_if_empty {l : List Char} {c : Char} (hc : c ≠ '-')
    (h : c ∈ (if l.isEmpty then ['-'] else l)) : c ∈ l := by
  split at h
  · simp only [List.mem_singleton] at h
    exact absurd h hc
  · exact h

/-- Setting a square only touches the grid, never the castling string. -/
theorem set_piece_castling (b : Board) (c : List Int) (p : Char) :
    (b.set_piece c p).castling_availability = b.castling_availability := by
  simp only [Board.set_piece]
  split <;> rfl

/-- The castling string produced by the move executor is exactly the
`update_castling` step applied to the old string (no later step of
`move_piece` touches it). -/
theorem move_piece_castling (b : Board) (s t : List Int) :
    (b.move_piece s t).castling_availability =
      update_castling (get_piece b s) (s.getD 1 0) b.castling_availability := by
  unfold Board.move_piece
  simp only [set_piece_castling, apply_ite Board.castling_availability, ite_self]

/-- Rights monotonicity for one `update_castling` step: no character other
than the `-` placeholder is ever introduced. -/
theorem update_castling_subset (piece : Char) (col : Int) (ca : List Char)
    (c : Char) (hc : c ≠ '-') (h : c ∈ update_castling piece col ca) :
    c ∈ ca := by
  unfold update_castling at h
  have h2 := mem_dash_if_empty hc h
  split_ifs at h2 <;> solve_by_elim [List.mem_of_mem_filter]

/-- C7 (amended).  Along any sequence of executed moves the set of castling
rights only shrinks (any character of the final castling string other than
the `-` placeholder was already present initially); a king move clears both
of its color's rights; and a rook move from its home file (column 0 or 7)
clears the matching right.  (The unamended part of the claim — that capturing
a rook on its home square also clears the right — is refuted by the
counterexample theorem.) -/
theorem c7_castling_rights_monotone :
    (∀ (b : Board) (ms : List (List Int × List Int)) (c : Char), c ≠ '-' →
        c ∈ (apply_moves b ms).castling_availability →
        c ∈ b.castling_availability)
    ∧ (∀ (b : Board) (s t : List Int), get_piece b s = 'K' →
        'K' ∉ (b.move_piece s t).castling_availability ∧
        'Q' ∉ (b.move_piece s t).castling_availability)
    ∧ (∀ (b : Board) (s t : List Int), get_piece b s = 'k' →
        'k' ∉ (b.move_piece s t).castling_availability ∧
        'q' ∉ (b.move_piece s t).castling_availability)
    ∧ (∀ (b : Board) (s t : List Int), get_piece b s = 'R' → s.getD 1 0 = 0 →
        'Q' ∉ (b.move_piece s t).castling_availability)
    ∧ (∀ (b : Board) (s t : List Int), get_piece b s = 'R' → s.getD 1 0 = 7 →
        'K' ∉ (b.move_piece s t).castling_availability)
    ∧ (∀ (b : Board) (s t : List Int), get_piece b s = 'r' → s.getD 1 0 = 0 →
        'q' ∉ (b.move_piece s t).castling_availability)
    ∧ (∀ (b : Board) (s t : List Int), get_piece b s = 'r' → s.getD 1 0 = 7 →
        'k' ∉ (b.move_piece s t).castling_availability) := by
  refine ⟨?_, ?_, ?_, ?_, ?_, ?_, ?_⟩
  · intro b ms
    induction ms generalizing b with
    | nil => intro c _ h; exact h
    | cons st rest ih =>
      intro c hc h
      obtain ⟨s, t⟩ := st
      have h1 := ih (b.move_piece s t) c hc h
      rw [move_piece_castling] at h1
      exact update_castling_subset _ _ _ _ hc h1
  · intro b s t hp
    rw [move_piece_castling, hp]
    unfold update_castling
    simp only [(show ('K' : Char) ≠ 'R' by decide), (show ('K' : Char) ≠ 'r' by decide),
      false_and, if_false, reduceIte]
    constructor <;> (split <;> simp [List.mem_filter])
  · intro b s t hp
    rw [move_piece_castling, hp]
    unfold update_castling
    simp only [(show ('k' : Char) ≠ 'R' by decide), (show ('k' : Char) ≠ 'r' by decide),
      (show ('k' : Char) ≠ 'K' by decide), false_and, if_false, reduceIte]
    constructor <;> (split <;> simp [List.mem_filter])
  · intro b s t hp hcol
    rw [move_piece_castling, hp, hcol]
    unfold update_castling
    simp [(show ('R' : Char) ≠ 'K' by decide), (show ('R' : Char) ≠ 'k' by decide)]
    split <;> simp [List.mem_filter]
  · intro b s t hp hcol
    rw [move_piece_castling, hp, hcol]
    unfold update_castling
    simp [(show ('R' : Char) ≠ 'K' by decide), (show ('R' : Char) ≠ 'k' by decide)]
    split <;> simp [List.mem_filter]
  · intro b s t hp hcol
    rw [move_piece_castling, hp, hcol]
    unfold update_castling
    simp [(show ('r' : Char) ≠ 'K' by decide), (show ('r' : Char) ≠ 'k' by decide)]
    split <;> simp [List.mem_filter]
  · intro b s t hp hcol
    rw [move_piece_castling, hp, hcol]
    unfold update_castling
    simp [(show ('r' : Char) ≠ 'K' by decide), (show ('r' : Char) ≠ 'k' by decide)]
    split <;> simp [List.mem_filter]

/-! ### C3: the fifty-move rule and its interaction with mate detection -/

/-- C3 (amended).  When the halfmove counter has reached 100 the status
evaluation reports the fifty-move draw (status 4) provided both colors still
have at least one entry in their legal-move map; when a side has zero
entries, the checkmate/stalemate classification runs afterwards and
overwrites the fifty-move value (refuted precedence is shown by the
counterexample theorem). -/
theorem c3_fifty_move_draw_when_moves_exist (game : Game)
    (h100 : game.board.halfmove_counter ≥ 100)
    (hw : get_available_moves_internal game.board 'w' false ≠ [])
    (hb : get_available_moves_internal game.board 'b' false ≠ []) :
    (Game.update_game_status game).game_status = 4 := by
  simp only [Game.update_game_status]
  rw [if_neg (by simp [hw]), if_neg (by simp [hb])]
  simp [h100]

/-! ### C9: movement request on an empty square -/

/-- C9 (amended).  Requesting piece movements for the empty-square marker is
not fatal: the `'*'` arm of `get_piece_movements` returns an empty move list,
on every board and for every color; the generator's panic (the `none` of the
embedding) is reached only by characters that are not pieces and not `'*'`,
such as `'x'`. -/
theorem c9_empty_square_returns_empty_list (board : Board) (coords : List Int)
    (color : Char) :
    board.get_piece_movements coords '*' color = some []
    ∧ board.get_piece_movements coords 'x' color = none :=
  ⟨rfl, rfl⟩

/-! ### Concrete positions used by the remaining claims -/

def start_fen : String := "rnbqkbnr/pppppppp/8/8/8/8/PPPPPPPP/RNBQKBNR w KQkq - 0 1"

def start_board : Board := parse_fen start_fen

/-- The checkmate position of the source's `test_game_cases`, with the
halfmove counter raised to 100. -/
def mate_100_game : Game :=
  Game.new_from_fen "6k1/5p1p/8/6p1/2P1p1P1/4P2P/1r6/q1K5 w - - 100 47"

/-- The fifty-move draw position of the source's `test_game_cases` (status 4
expected there). -/
def fifty_game : Game :=
  Game.new_from_fen "6k1/5p1p/8/6p1/2P1p1P1/4P2P/1r6/2K5 w - - 100 47"

/-- The position after 1. f3 e5, where Black's double push has just set the
en-passant square to e6 and White is to move. -/
def ep_board : Board :=
  parse_fen "rnbqkbnr/pppp1ppp/8/4p3/8/5P2/PPPPP1PP/RNBQKBNR w KQkq e6 0 2"

/-- A position where both sides may castle both ways, Black to move. -/
def castle_board : Board :=
  parse_fen "r3k2r/pppppppp/8/8/8/8/PPPPPPPP/R3K2R b KQkq - 0 1"

/-- The same castling position with White to move. -/
def castle_board_w : Board :=
  parse_fen "r3k2r/pppppppp/8/8/8/8/PPPPPPPP/R3K2R w KQkq - 0 1"

/-- A position where the black h8 rook can capture the white h1 rook on its
home square. -/
def capture_board : Board := parse_fen "4k2r/8/8/8/8/8/8/4K2R b KQkq - 0 1"

/-- A white pawn on b4 with a black pawn on a5 diagonally ahead of it. -/
def pawn_board : Board := parse_fen "4k3/8/8/p7/1P6/8/8/4K3 w - - 0 1"

/-- C9 counterexample.  At a concrete empty square of the starting position
the move generator returns the empty list and does not panic (`none` is the
embedding of the panic), contradicting the claim that an empty-square request
is a fatal error. -/
theorem c9_counterexample_empty_square_no_panic :
    start_board.get_piece_movements [3, 3] '*' 'w' = some []
    ∧ start_board.get_piece_movements [3, 3] '*' 'w' ≠ none := by decide

/-- C3 counterexample.  A game whose board has `halfmove_counter = 100` but
in which White is checkmated: the status evaluated at construction is 2
(checkmate, Black wins), not 4, so the fifty-move status does not take
precedence over the checkmate classification. -/
theorem c3_counterexample_mate_overrides_fifty :
    mate_100_game.board.halfmove_counter ≥ 100
    ∧ mate_100_game.game_status = 2 := by
  constructor
  · decide
  · decide

/-- Witness for C3 (amended): the source's own fifty-move test position has
halfmove counter 100 and both sides still have legal moves, and the status
evaluation yields 4 there. -/
theorem c3_fifty_move_witness :
    (Game.update_game_status fifty_game).game_status = 4 :=
  c3_fifty_move_draw_when_moves_exist fifty_game (by decide) (by decide) (by decide)

/-- Witness for C1 at a concrete input: the double-push entry of the e2 pawn
is in the legal-move map of the starting position, and executing it indeed
leaves White not in check. -/
theorem c1_witness_start_position :
    player_is_in_check (start_board.move_piece [6, 4] [5, 4]) 'w' = false :=
  c1_legal_moves_never_leave_check start_board 'w' [6, 4] [[5, 4], [4, 4]] [5, 4]
    (by decide) (by decide)

/-- Witness for C2 at a concrete input: e2-e5 is not a legal pawn move from
the starting position, `make_move` reports failure and the game value is
untouched. -/
theorem c2_witness_illegal_pawn_jump :
    (Game.new.make_move "e2" "e5").1 = false
    ∧ (Game.new.make_move "e2" "e5").2 = Game.new := by
  have h : (Game.new.make_move "e2" "e5").1 = false := by decide
  exact ⟨h, c2_rejected_move_unchanged Game.new "e2" "e5" h⟩

/-- Witness for C7 at concrete inputs: after the quiet pawn move e2-e3 the
white kingside right is still present (so it was present initially by
monotonicity), and moving the white king from e1 removes it. -/
theorem c7_witness_king_move_clears :
    'K' ∈ start_board.castling_availability
    ∧ 'K' ∉ (start_board.move_piece [7, 4] [6, 4]).castling_availability := by
  refine ⟨?_, ?_⟩
  · exact c7_castling_rights_monotone.1 start_board [([6, 4], [5, 4])] 'K'
      (by decide) (by decide)
  · exact (c7_castling_rights_monotone.2.1 start_board [7, 4] [6, 4] (by decide)).1

/-- C7 counterexample.  Black's rook captures the white rook on its home
square h1; the white kingside castling right `K` survives the move (the move
executor looks only at the moving piece, never at the captured one), so a
right is not cleared when the corresponding rook is captured on its home
square.  (The black rook moving from file 7 clears `k`, hence the remaining
string.) -/
theorem c7_counterexample_capture_keeps_right :
    get_piece capture_board [7, 7] = 'R'
    ∧ get_piece (capture_board.move_piece [0, 7] [7, 7]) [7, 7] = 'r'
    ∧ (capture_board.move_piece [0, 7] [7, 7]).castling_availability = ['K', 'Q', 'q'] := by
  decide

/-- C5 (code bug).  In a position whose en-passant square is e6, White plays
the single pawn push a2-a3; the move executor leaves `en_passant_square`
as "e6" instead of clearing it to "-" — the clearing branch is the `else` of
the is-pawn test, so pawn moves other than double pushes never clear it. -/
theorem c5_single_push_keeps_stale_ep :
    get_piece ep_board [6, 0] = 'P'
    ∧ ep_board.en_passant_square = "e6"
    ∧ (ep_board.move_piece [6, 0] [5, 0]).en_passant_square = "e6" := by decide

/-- C6 (code bug).  Castling execution at concrete inputs: the white
kingside two-file king move correctly relocates the h1 rook to f1, but the
black kingside move e8-g8 leaves the h8 rook in place and puts nothing on
f8, and the black queenside move e8-c8 places an uppercase (white) `R` on d8
— the third castling branch writes `'R'` and the fourth branch repeats the
white condition instead of handling black kingside. -/
theorem c6_black_castling_rook_broken :
    (get_piece (castle_board.move_piece [0, 4] [0, 6]) [0, 6] = 'k'
      ∧ get_piece (castle_board.move_piece [0, 4] [0, 6]) [0, 7] = 'r'
      ∧ get_piece (castle_board.move_piece [0, 4] [0, 6]) [0, 5] = '*')
    ∧ (get_piece (castle_board.move_piece [0, 4] [0, 2]) [0, 2] = 'k'
      ∧ get_piece (castle_board.move_piece [0, 4] [0, 2]) [0, 3] = 'R'
      ∧ get_piece (castle_board.move_piece [0, 4] [0, 2]) [0, 0] = '*')
    ∧ (get_piece (castle_board_w.move_piece [7, 4] [7, 6]) [7, 5] = 'R'
      ∧ get_piece (castle_board_w.move_piece [7, 4] [7, 6]) [7, 7] = '*') := by decide

/-- C8 (code bug).  The white pawn on b4 faces an enemy pawn on a5 (an
on-board forward-diagonal square holding an enemy piece), yet its generated
move list is only the forward push to b3's square — the capture toward file
a is missing because the source guards it with `x_pos - 1 > 0` instead of
`>= 0`. -/
theorem c8_b_file_pawn_misses_left_capture :
    get_piece pawn_board [3, 0] = 'p'
    ∧ is_enemy_piece 'w' (get_piece pawn_board [3, 0]) = true
    ∧ pawn_board.get_piece_movements [4, 1] 'P' 'w' = some [[3, 1]] := by decide

/-! ### C4: the fool's mate sequence -/

def fool_fen_1 : String := "rnbqkbnr/pppppppp/8/8/8/5P2/PPPPP1PP/RNBQKBNR b KQkq - 0 1"

def fool_fen_2 : String := "rnbqkbnr/pppp1ppp/8/4p3/8/5P2/PPPPP1PP/RNBQKBNR w KQkq e6 0 2"

def fool_fen_3 : String := "rnbqkbnr/pppp1ppp/8/4p3/6P1/5P2/PPPPP2P/RNBQKBNR b KQkq g3 0 2"

def fool_fen_4 : String := "rnb1kbnr/pppp1ppp/8/4p3/6Pq/5P2/PPPPP2P/RNBQKBNR w KQkq - 1 3"

/-- The game after 1. f3. -/
def fool_game_1 : Game :=
  { fen := fool_fen_1, board := parse_fen fool_fen_1
    checks := [false, false], game_status := 0 }

/-- The game after 1. f3 e5. -/
def fool_game_2 : Game :=
  { fen := fool_fen_2, board := parse_fen fool_fen_2
    checks := [false, false], game_status := 0 }

/-- The game after 1. f3 e5 2. g4. -/
def fool_game_3 : Game :=
  { fen := fool_fen_3, board := parse_fen fool_fen_3
    checks := [false, false], game_status := 0 }

/-- The game after 1. f3 e5 2. g4 Qh4#: White in check, status 2. -/
def fool_game_4 : Game :=
  { fen := fool_fen_4, board := parse_fen fool_fen_4
    checks := [true, false], game_status := 2 }

theorem fool_step_1 : Game.new.make_move "f2" "f3" = (true, fool_game_1) := by
  decide

theorem fool_step_2 : fool_game_1.make_move "e7" "e5" = (true, fool_game_2) := by
  decide

theorem fool_step_3 : fool_game_2.make_move "g2" "g4" = (true, fool_game_3) := by
  decide

theorem fool_step_4 : fool_game_3.make_move "d8" "h4" = (true, fool_game_4) := by
  decide

/-- C4.  From `Game.new`, the four moves f2-f3, e7-e5, g2-g4, d8-h4 each
succeed, and the resulting game has status 2 (checkmate, Black wins), with
White holding zero entries in its legal-move map and White's check flag set. -/
theorem c4_fools_mate_status_two :
    (Game.new.make_move "f2" "f3").1 = true
    ∧ ((Game.new.make_move "f2" "f3").2.make_move "e7" "e5").1 = true
    ∧ (((Game.new.make_move "f2" "f3").2.make_move "e7" "e5").2.make_move
        "g2" "g4").1 = true
    ∧ ((((Game.new.make_move "f2" "f3").2.make_move "e7" "e5").2.make_move
        "g2" "g4").2.make_move "d8" "h4").1 = true
    ∧ ((((Game.new.make_move "f2" "f3").2.make_move "e7" "e5").2.make_move
        "g2" "g4").2.make_move "d8" "h4").2.game_status = 2
    ∧ get_available_moves_internal
        ((((Game.new.make_move "f2" "f3").2.make_move "e7" "e5").2.make_move
          "g2" "g4").2.make_move "d8" "h4").2.board 'w' false = []
    ∧ ((((Game.new.make_move "f2" "f3").2.make_move "e7" "e5").2.make_move
        "g2" "g4").2.make_move "d8" "h4").2.checks = [true, false] := by
  simp only [fool_step_1, fool_step_2, fool_step_3, fool_step_4]
  decide

end Chess
